import Mathlib

/-
  Verification development for the hybrid-nexus-render repository.

  Shallow embedding of:
  - src/bridge/database_bridge.py   (DatabaseBridge: schema conversion, sync passes)
  - src/bridge/automation_triggers.py (AutomationTriggerEngine: sequences, steps, log)
  - src/backend/server.py and src/server/fused_api_gateway.py (update_lead endpoints)

  Modelling conventions (shared by all definitions below):
  - Datetimes are abstracted to ticks (Nat).  The rendering datetime.isoformat is
    the constructor Sv.iso of the abstract string-value type Sv, and
    datetime.fromisoformat succeeds exactly on such renderings; the replacement
    of a trailing Z by +00:00 performed by the source before parsing is a no-op
    on abstract iso renderings and is absorbed into pyFromIso.
  - JSON/dict string values in the two lead schemas are modelled by Sv: either a
    literal string or the iso rendering of a tick.  A missing dict key is none;
    a Python None value stored under a key is merged with the missing-key case.
  - uuid.uuid4() draws are environment inputs: every operation that may draw a
    fresh uuid receives it as an explicit argument (or stream of arguments).
  - File writes are modelled by returning the new file content; the database
    collection is modelled as a list of stored documents in natural order.
-/

/-- Abstract string values: literal strings, or the ISO-8601 rendering of an
abstract datetime tick. -/
inductive Sv where
  | lit (s : String)
  | iso (t : Nat)
  deriving Repr, DecidableEq

/-- Python truthiness of a string value: only the empty string is falsy. -/
def Sv.truthy : Sv → Bool
  | .lit s => s ≠ ""
  | .iso _ => true

/-- A timestamp field as stored in a document: either a native datetime or a
string (source checks isinstance(timestamp, datetime)). -/
inductive TsVal where
  | dt (t : Nat)
  | str (s : Sv)
  deriving Repr, DecidableEq

/-- datetime.fromisoformat after the Z normalisation: succeeds exactly on iso
renderings, recovering the tick. -/
def pyFromIso : Sv → Option Nat
  | .iso t => some t
  | .lit _ => none

/-- Python x or y on an optional string value: the default is taken when the
key is missing or its value is falsy. -/
def pyOrSv (v : Option Sv) (dflt : Sv) : Sv :=
  match v with
  | some s => if s.truthy then s else dflt
  | none => dflt

/-- A document of the MongoDB leads collection as the bridge reads or writes it
(field names of the Lead Store schema). -/
structure LeadDoc where
  id : Option Sv
  nome : Option Sv
  email : Option Sv
  telefone : Option Sv
  status : Option Sv
  fonte : Option Sv
  notas : Option Sv
  timestamp : Option TsVal
  sync_source : Option Sv
  original_id : Option Sv
  deriving Repr, DecidableEq

/-- A stored document: the document together with its MongoDB ObjectId. -/
structure StoredLead where
  oid : Nat
  doc : LeadDoc
  deriving Repr, DecidableEq

/-- A record of the MiniMax JSON file (File Store schema).  Fields are optional
because the sync reads arbitrary JSON; records written by the converter always
carry every field. -/
structure MinimaxLead where
  lead_id : Option Sv
  timestamp : Option Sv
  nome : Option Sv
  email : Option Sv
  telefone : Option Sv
  status : Option Sv
  source : Option Sv
  notes : Option Sv
  created_at : Option Sv
  updated_at : Option Sv
  sync_source : Option Sv
  original_id : Option Sv
  deriving Repr, DecidableEq

/-- Lines 302-307 of database_bridge.py: the timestamp string used for the
MiniMax record.  A native datetime is rendered with isoformat; a truthy string
is kept; otherwise the current time is rendered. -/
def timestampStr (ts : Option TsVal) (now : Nat) : Sv :=
  match ts with
  | some (.dt t) => .iso t
  | some (.str s) => if s.truthy then s else .iso now
  | none => .iso now

/-- DatabaseBridge._convert_mongo_lead_to_minimax (database_bridge.py lines
295-322).  now is the clock tick of the run; freshUuid is the uuid4 draw used
when the document has no truthy id field. -/
def convert_mongo_lead_to_minimax (l : StoredLead) (now : Nat) (freshUuid : Sv) :
    MinimaxLead :=
  let tstr := timestampStr l.doc.timestamp now
  { lead_id := some (pyOrSv l.doc.id freshUuid)
  , timestamp := some tstr
  , nome := some (l.doc.nome.getD (.lit ""))
  , email := some (l.doc.email.getD (.lit ""))
  , telefone := some (l.doc.telefone.getD (.lit ""))
  , status := some (l.doc.status.getD (.lit "novo"))
  , source := some (l.doc.fonte.getD (.lit "mongodb"))
  , notes := some (l.doc.notas.getD (.lit ""))
  , created_at := some tstr
  , updated_at := some (.iso now)
  , sync_source := some (.lit "mongodb_hybrid_nexus")
  , original_id := some (.lit (toString l.oid)) }

/-- DatabaseBridge._convert_minimax_lead_to_mongo (database_bridge.py lines
324-344).  Raises (error) when the timestamp is a string that fromisoformat
rejects; freshUuid is the eagerly evaluated uuid4 default for lead_id. -/
def convert_minimax_lead_to_mongo (m : MinimaxLead) (freshUuid : Sv) :
    Except String LeadDoc :=
  let mkDoc : Option TsVal → LeadDoc := fun ts =>
    { id := some (m.lead_id.getD freshUuid)
    , nome := some (m.nome.getD (.lit ""))
    , email := some (m.email.getD (.lit ""))
    , telefone := some (m.telefone.getD (.lit ""))
    , status := some (m.status.getD (.lit "novo"))
    , fonte := some (m.source.getD (.lit "minimax"))
    , notas := some (m.notes.getD (.lit ""))
    , timestamp := ts
    , sync_source := some (m.sync_source.getD (.lit "minimax"))
    , original_id := some (m.original_id.getD (.lit "")) }
  match m.timestamp with
  | some s =>
      match pyFromIso s with
      | some t => Except.ok (mkDoc (some (.dt t)))
      | none => Except.error "invalid isoformat string"
  | none => Except.ok (mkDoc none)

/-- The conversion loop of sync_leads_mongodb_to_minimax (lines 93-110): each
document is converted in collection order; i indexes the uuid4 draw available
to the current record.  The per-record try block has no raising path in this
model, so no record is skipped. -/
def syncMongoLoop (now : Nat) (uuids : Nat → Sv) :
    List StoredLead → Nat → List MinimaxLead
  | [], _ => []
  | l :: rest, i =>
      convert_mongo_lead_to_minimax l now (uuids i) :: syncMongoLoop now uuids rest (i + 1)

/-- DatabaseBridge.sync_leads_mongodb_to_minimax (database_bridge.py lines
75-129), restricted to the file content it saves: every document of the
collection is converted and the converted list overwrites the secondary file
wholesale.  uuids is the stream of uuid4 draws (one available per record). -/
def sync_mongodb_to_minimax (store : List StoredLead) (now : Nat)
    (uuids : Nat → Sv) : List MinimaxLead :=
  syncMongoLoop now uuids store 0

/-- Erase the updated_at field, for comparisons up to updated_at. -/
def stripUpdatedAt (m : MinimaxLead) : MinimaxLead :=
  { m with updated_at := none }

/-- A document is resync-stable when its id field is present and truthy (no
fresh uuid is drawn for it) and its timestamp is present and truthy (the
current time is never substituted). -/
def stableForResync (d : LeadDoc) : Bool :=
  (match d.id with
   | some v => v.truthy
   | none => false) &&
  (match d.timestamp with
   | some (.dt _) => true
   | some (.str s) => s.truthy
   | none => false)

/-- The MongoDB query filter used by sync_leads_minimax_to_mongodb (lines
160-163): a document matches when its email and telefone fields equal the
values read from the MiniMax record (a missing field matches a missing or null
query value, as in MongoDB). -/
def queryMatches (email telefone : Option Sv) (d : LeadDoc) : Bool :=
  d.email == email && d.telefone == telefone

/-- update_one on the filter by _id: the first stored document with the given
ObjectId has all fields of the update document set (the update document carries
every schema field, so the whole document is replaced; the ObjectId is kept). -/
def updateFirstByOid : List StoredLead → Nat → LeadDoc → List StoredLead
  | [], _, _ => []
  | r :: rest, oid, d =>
      if r.oid = oid then ⟨r.oid, d⟩ :: rest else r :: updateFirstByOid rest oid d

/-- Outcome of processing one MiniMax record during sync(secondary to primary). -/
inductive SyncOutcome where
  | updated
  | inserted
  | errored
  deriving Repr, DecidableEq

/-- The per-record body of DatabaseBridge.sync_leads_minimax_to_mongodb
(database_bridge.py lines 157-184): find an existing document by the
(email, telefone) tuple, convert the record (a conversion error is counted and
skipped, leaving the collection unchanged), then update the found document in
place or insert a new one.  freshUuid is the uuid4 draw of the conversion;
freshOid is the ObjectId assigned by insert_one. -/
def sync_one_minimax_lead (store : List StoredLead) (m : MinimaxLead)
    (freshUuid : Sv) (freshOid : Nat) : List StoredLead × SyncOutcome :=
  let existing := store.find? (fun r => queryMatches m.email m.telefone r.doc)
  match convert_minimax_lead_to_mongo m freshUuid with
  | Except.error _ => (store, .errored)
  | Except.ok d =>
      match existing with
      | some r => (updateFirstByOid store r.oid d, .updated)
      | none => (store ++ [⟨freshOid, d⟩], .inserted)

/-- An entry of the automation log file (automation_triggers.py lines 682-689). -/
structure LogEntry where
  timestamp : Nat
  action : String
  event_id : String
  lead_email : String
  sequence_id : Option String
  deriving Repr, DecidableEq

/-- AutomationTriggerEngine._log_automation_action (automation_triggers.py
lines 679-711), restricted to the file content it writes: the entry is
appended, then only the last 1000 entries are kept. -/
def log_automation_action (logs : List LogEntry) (entry : LogEntry) :
    List LogEntry :=
  let l := logs ++ [entry]
  if l.length > 1000 then l.drop (l.length - 1000) else l

/-
  Automation trigger engine (automation_triggers.py).  Engine strings carry no
  parsing, so plain String is used; clock ticks are rendered with toString.
  The step handlers (_send_email, _send_whatsapp, _track_analytics,
  _update_crm, _execute_delay) are I/O stubs that log; whether a given handler
  invocation raises is environment behaviour, supplied as an oracle
  (Option String: the exception message, if one is raised).
-/

/-- The config dict of a step (keys read anywhere in the source handlers and
in the default sequences). -/
structure AutoStepConfig where
  template : Option String := none
  subject : Option String := none
  message : Option String := none
  event_name : Option String := none
  ga4 : Bool := false
  meta_pixel : Bool := false
  minutes : Option Nat := none
  hours : Option Nat := none
  days : Option Nat := none
  delay_minutes : Option Nat := none
  deriving Repr, DecidableEq

/-- A step of an automation sequence.  delay_minutes is the top-level dict key
read by _execute_sequence line 286 (the default sequences nest delay_minutes
inside config instead, where that read does not see it). -/
structure AutoStep where
  type : String
  config : AutoStepConfig := {}
  delay_minutes : Option Nat := none
  deriving Repr, DecidableEq

/-- AutomationSequence dataclass (automation_triggers.py lines 54-63). -/
structure AutomationSequence where
  sequence_id : String
  name : String
  trigger_event : String
  steps : List AutoStep
  active : Bool := true
  created_at : Option Nat := none
  updated_at : Option Nat := none
  deriving Repr, DecidableEq

/-- Payload of an AutomationEvent: the lead data dict (lead_capture and
cart_abandonment), or the status-change payload of lines 147-151. -/
structure LeadData where
  lead_id : Option String := none
  nome : Option String := none
  email : Option String := none
  telefone : Option String := none
  deriving Repr, DecidableEq

inductive EventData where
  | leadData (d : LeadData)
  | statusChange (old_status new_status : String) (lead_data : LeadData)
  deriving Repr, DecidableEq

/-- AutomationEvent dataclass (automation_triggers.py lines 41-52). -/
structure AutomationEvent where
  event_id : String
  event_type : String
  lead_id : String
  lead_email : String
  lead_name : String
  timestamp : Nat
  data : EventData
  sequence_id : Option String := none
  status : String := "pending"
  deriving Repr, DecidableEq

/-- The sequence-instance dict built by _execute_sequence lines 265-275 and
mutated by the later lines. -/
structure SequenceInstance where
  sequence_id : String
  instance_id : String
  event_id : String
  lead_email : String
  lead_name : String
  steps_completed : Nat
  steps_total : Nat
  started_at : Nat
  status : String
  completed_at : Option Nat := none
  error : Option String := none
  deriving Repr, DecidableEq

/-- The sequence_instances.json dict: instance id to instance, insertion
ordered. -/
abbrev InstMap : Type := List (String × SequenceInstance)

/-- _save_sequence_instance (lines 656-677): the dict entry under the instance
id is replaced, or appended when absent. -/
def saveInstance (inst : SequenceInstance) (m : InstMap) : InstMap :=
  if (m.map Prod.fst).contains inst.instance_id then
    m.map (fun p => if p.1 = inst.instance_id then (p.1, inst) else p)
  else m ++ [(inst.instance_id, inst)]

/-- In-process engine state: the active-sequences dict values (insertion
order), the asyncio event queue contents, and the persisted instances file. -/
structure EngineState where
  active_sequences : List AutomationSequence
  queue : List AutomationEvent
  instances : InstMap

/-- Lift an oracle outcome to the result of a handler invocation. -/
def effToExcept : Option String → Except String Unit
  | some msg => Except.error msg
  | none => Except.ok ()

/-- _execute_delay (lines 449-467): seconds slept, summed from the config
minutes/hours/days fields (a zero total skips the sleep call, which equals
sleeping zero seconds). -/
def delayConfigSeconds (c : AutoStepConfig) : Nat :=
  (c.minutes.getD 0) * 60 + (c.hours.getD 0) * 3600 + (c.days.getD 0) * 86400

/-- _execute_step (lines 307-330): dispatch on the step type; every recognised
handler re-raises its exception (the except blocks of the handlers and of
_execute_step itself end in raise); an unrecognised type only logs a warning
and succeeds.  Returns the handler outcome and the seconds slept inside the
handler (only the delay handler sleeps). -/
def execStep (eff : Option String) (step : AutoStep) :
    Except String Unit × Nat :=
  if step.type == "send_email" then (effToExcept eff, 0)
  else if step.type == "send_whatsapp" then (effToExcept eff, 0)
  else if step.type == "track_analytics" then (effToExcept eff, 0)
  else if step.type == "update_crm" then (effToExcept eff, 0)
  else if step.type == "delay" then (effToExcept eff, delayConfigSeconds step.config)
  else (Except.ok (), 0)

/-- The inter-step pause of _execute_sequence lines 285-289: the top-level
delay_minutes key of the step, slept in seconds when positive. -/
def interStepSleep (step : AutoStep) : Nat :=
  match step.delay_minutes with
  | some d => if d > 0 then d * 60 else 0
  | none => 0

/-- The step loop of _execute_sequence lines 281-289.  effs gives the oracle
outcome of the handler invoked at each step index; idx is the index of the
first remaining step.  Returns (number of steps on which _execute_step was
invoked, total seconds slept, first exception if any): the loop stops at the
first step whose handler raises, so later steps are never invoked. -/
def runStepsLoop (effs : Nat → Option String) :
    List AutoStep → Nat → Nat × Nat × Option String
  | [], _ => (0, 0, none)
  | step :: rest, idx =>
      let r := execStep (effs idx) step
      match r.1 with
      | Except.error msg => (1, r.2, some msg)
      | Except.ok _ =>
          let rr := runStepsLoop effs rest (idx + 1)
          (rr.1 + 1, r.2 + interStepSleep step + rr.2.1, rr.2.2)

/-- Observable trace of one _execute_sequence call. -/
structure SeqRun where
  invoked : Nat
  slept : Nat
  failure : Option String
  saves : List SequenceInstance
  propagated : Option String
  deriving Repr, DecidableEq

/-- AutomationTriggerEngine._execute_sequence (lines 259-305).  The instance is
created directly with status running and persisted; the steps run in order; on
success the instance is marked completed, and on a step exception the except
block of lines 298-305 marks it error with the exception message and persists
it.  That except block ends without a raise statement, so no exception ever
escapes to the caller: the propagated field of the trace records the exception
re-raised to the caller and is none on both paths. -/
def executeSequence (effs : Nat → Option String) (seq : AutomationSequence)
    (event : AutomationEvent) (startNow endNow : Nat) (m : InstMap) :
    InstMap × SeqRun :=
  let inst0 : SequenceInstance :=
    { sequence_id := seq.sequence_id
    , instance_id := seq.sequence_id ++ "_" ++ event.event_id
    , event_id := event.event_id
    , lead_email := event.lead_email
    , lead_name := event.lead_name
    , steps_completed := 0
    , steps_total := seq.steps.length
    , started_at := startNow
    , status := "running" }
  let m1 := saveInstance inst0 m
  let r := runStepsLoop effs seq.steps 0
  match r.2.2 with
  | none =>
      let fin := { inst0 with
        steps_completed := seq.steps.length
        , status := "completed"
        , completed_at := some endNow }
      (saveInstance fin m1, ⟨r.1, r.2.1, none, [inst0, fin], none⟩)
  | some msg =>
      let fin := { inst0 with
        steps_completed := r.1 - 1
        , status := "error"
        , error := some msg }
      (saveInstance fin m1, ⟨r.1, r.2.1, some msg, [inst0, fin], none⟩)

/-- The loop of _process_event line 253-254: run each matched sequence in turn
(not concurrently), threading the instances file.  effs gives the handler
oracle of the i-th matched sequence. -/
def runMatching (effs : Nat → Nat → Option String) (event : AutomationEvent)
    (startNow endNow : Nat) :
    List AutomationSequence → Nat → InstMap → InstMap × List (String × SeqRun)
  | [], _, m => (m, [])
  | seq :: rest, i, m =>
      let pr := executeSequence (effs i) seq event startNow endNow m
      let prs := runMatching effs event startNow endNow rest (i + 1) pr.1
      (prs.1, (seq.sequence_id, pr.2) :: prs.2)

/-- AutomationTriggerEngine._process_event (lines 244-257): select the active
sequences whose trigger_event equals the event type and execute each in turn.
The except block of lines 256-257 only logs; since _execute_sequence never
raises, it is unreachable. -/
def processEvent (effs : Nat → Nat → Option String) (event : AutomationEvent)
    (startNow endNow : Nat) (st : EngineState) :
    EngineState × List (String × SeqRun) :=
  let matching := st.active_sequences.filter
    (fun seq => seq.trigger_event == event.event_type && seq.active)
  let pr := runMatching effs event startNow endNow matching 0 st.instances
  ({ st with instances := pr.1 }, pr.2)

/-- Response dict of the trigger_* coroutines. -/
structure TriggerResponse where
  success : Bool
  event_id : Option String := none
  status_change : Option String := none
  triggers_fired : List String := []
  error : Option String := none
  deriving Repr, DecidableEq

/-- The AutomationEvent built by trigger_lead_capture lines 103-111. -/
def mkLeadCaptureEvent (lead_data : LeadData) (now : Nat) : AutomationEvent :=
  { event_id := "lead_capture_" ++ toString now
  , event_type := "lead_capture"
  , lead_id := lead_data.lead_id.getD ""
  , lead_email := lead_data.email.getD ""
  , lead_name := lead_data.nome.getD ""
  , timestamp := now
  , data := .leadData lead_data }

/-- AutomationTriggerEngine.trigger_lead_capture (lines 97-132): build the
event, put it on the event queue, process it synchronously in the same call,
and return the hardcoded response of lines 121-125.  The try body is total in
this model (nothing in it raises), so the except path returning success false
is never taken. -/
def trigger_lead_capture (effs : Nat → Nat → Option String)
    (lead_data : LeadData) (now endNow : Nat) (st : EngineState) :
    TriggerResponse × EngineState × List (String × SeqRun) :=
  let event := mkLeadCaptureEvent lead_data now
  let st1 := { st with queue := st.queue ++ [event] }
  let pr := processEvent effs event now endNow st1
  ({ success := true
   , event_id := some event.event_id
   , triggers_fired := ["welcome_sequence", "7_day_nurture", "whatsapp_welcome"] }
  , pr.1, pr.2)

/-- The static status-to-trigger-name table of _get_triggers_for_status
(lines 587-593). -/
def status_triggers : List (String × List String) :=
  [ ("novo", ["welcome_sequence"])
  , ("contatado", ["follow_up_24h"])
  , ("qualificado", ["sales_sequence"])
  , ("vendido", ["onboarding_sequence"])
  , ("perdido", ["winback_sequence"]) ]

/-- AutomationTriggerEngine._get_triggers_for_status (lines 585-595). -/
def getTriggersForStatus (status : String) : List String :=
  ((status_triggers.find? (fun p => p.1 == status)).map Prod.snd).getD []

/-- The AutomationEvent built by trigger_status_change lines 140-152. -/
def mkStatusChangeEvent (lead_id old_status new_status : String)
    (lead_data : LeadData) (now : Nat) : AutomationEvent :=
  { event_id := "status_change_" ++ toString now
  , event_type := "status_change"
  , lead_id := lead_id
  , lead_email := lead_data.email.getD ""
  , lead_name := lead_data.nome.getD ""
  , timestamp := now
  , data := .statusChange old_status new_status lead_data }

/-- AutomationTriggerEngine.trigger_status_change (lines 134-174): build the
event, enqueue it, process it synchronously, then look the new status up in
the static table for the informational triggers_fired list of the response. -/
def trigger_status_change (effs : Nat → Nat → Option String)
    (lead_id old_status new_status : String) (lead_data : LeadData)
    (now endNow : Nat) (st : EngineState) :
    TriggerResponse × EngineState × List (String × SeqRun) :=
  let event := mkStatusChangeEvent lead_id old_status new_status lead_data now
  let st1 := { st with queue := st.queue ++ [event] }
  let pr := processEvent effs event now endNow st1
  ({ success := true
   , event_id := some event.event_id
   , status_change := some (old_status ++ " → " ++ new_status)
   , triggers_fired := getTriggersForStatus new_status }
  , pr.1, pr.2)

/-- The welcome sequence seeded by _initialize_default_sequences
(lines 475-506). -/
def welcome_7_day_seq (now : Nat) : AutomationSequence :=
  { sequence_id := "welcome_7_day"
  , name := "Sequência de Boas-vindas (7 dias)"
  , trigger_event := "lead_capture"
  , steps :=
      [ { type := "send_email"
        , config := { template := some "welcome_day_0"
                    , subject := some "Bem-vindo ao VIPNEXUS IA!"
                    , delay_minutes := some 0 } }
      , { type := "send_whatsapp"
        , config := { template := some "welcome_whatsapp"
                    , message := some "Olá \x7b\x7bnome\x7d\x7d! 👋 Obrigado por se interessar pelo VIPNEXUS IA. Em breve você receberá conteúdo exclusivo!"
                    , delay_minutes := some 5 } }
      , { type := "track_analytics"
        , config := { ga4 := true
                    , meta_pixel := true
                    , event_name := some "WelcomeSequenceStarted" } } ]
  , active := true
  , created_at := some now }

/-- The cart-recovery sequence seeded by _initialize_default_sequences
(lines 509-541). -/
def cart_recovery_seq (now : Nat) : AutomationSequence :=
  { sequence_id := "cart_recovery"
  , name := "Recuperação de Carrinho"
  , trigger_event := "cart_abandonment"
  , steps :=
      [ { type := "send_email"
        , config := { template := some "cart_recovery_1h"
                    , subject := some "Esqueceu alguma coisa? 🤔"
                    , delay_minutes := some 60 } }
      , { type := "send_whatsapp"
        , config := { template := some "cart_recovery_whatsapp"
                    , message := some "Oi \x7b\x7bnome\x7d\x7d! Vi que você quase fechou sua compra. Tem alguma dúvida? Posso ajudar! 😊"
                    , delay_minutes := some 120 } }
      , { type := "send_email"
        , config := { template := some "cart_recovery_24h"
                    , subject := some "Última chance: Oferta especial expira em breve! ⏰"
                    , delay_minutes := some 1440 } } ]
  , active := true
  , created_at := some now }

/-- The onboarding sequence seeded by _initialize_default_sequences
(lines 544-568). -/
def onboarding_seq (now : Nat) : AutomationSequence :=
  { sequence_id := "onboarding"
  , name := "Onboarding Pós-compra"
  , trigger_event := "purchase_completed"
  , steps :=
      [ { type := "send_email"
        , config := { template := some "thank_you"
                    , subject := some "Sua compra foi confirmada! 🎉"
                    , delay_minutes := some 0 } }
      , { type := "send_email"
        , config := { template := some "onboarding_guide"
                    , subject := some "Como começar com VIPNEXUS IA - Guia passo a passo"
                    , delay_minutes := some 1440 } } ]
  , active := true
  , created_at := some now }

/-- One iteration of the loop at lines 573-576: a default sequence is added
only when its id is not already registered. -/
def addDefaultSeq (l : List AutomationSequence) (seq : AutomationSequence) :
    List AutomationSequence :=
  if l.any (fun s => s.sequence_id == seq.sequence_id) then l else l ++ [seq]

/-- AutomationTriggerEngine._initialize_default_sequences (lines 471-583),
restricted to the registry it builds. -/
def installDefaultSequences (now : Nat) (st : EngineState) : EngineState :=
  let defaults := [welcome_7_day_seq now, cart_recovery_seq now, onboarding_seq now]
  { st with active_sequences := defaults.foldl addDefaultSeq st.active_sequences }

/-- The engine state right after initialize() on a fresh process (no persisted
sequences file, empty queue, no instances). -/
def freshEngine (now : Nat) : EngineState :=
  installDefaultSequences now ⟨[], [], []⟩

/-- Response of get_automation_status (lines 736-744). -/
structure StatusReport where
  success : Bool
  active_sequences : Nat
  total_sequences : Nat
  running_instances : Nat
  completed_instances : Nat
  event_queue_size : Nat
  deriving Repr, DecidableEq

/-- AutomationTriggerEngine.get_automation_status (lines 713-751): counts over
the registry, the persisted instances and the queue size; a pure observation
that consumes nothing. -/
def get_automation_status (st : EngineState) : StatusReport :=
  { success := true
  , active_sequences := (st.active_sequences.filter (fun s => s.active)).length
  , total_sequences := st.active_sequences.length
  , running_instances :=
      (st.instances.filter (fun p => p.2.status == "running")).length
  , completed_instances :=
      (st.instances.filter (fun p => p.2.status == "completed")).length
  , event_queue_size := st.queue.length }

/-
  Lead update endpoints (src/backend/server.py update_lead lines 152-167 and
  src/server/fused_api_gateway.py update_lead lines 346-413).  The leads
  collection is modelled as a list of lead documents in natural order; every
  stored lead carries the id field the endpoints query by.
-/

/-- A lead document as created by the backend (Lead model, server.py 40-49). -/
structure SrvLead where
  id : String
  nome : String
  email : String
  telefone : String
  status : String
  fonte : String
  timestamp : Nat
  notas : Option String := none
  deriving Repr, DecidableEq

/-- LeadUpdate request model (server.py lines 56-58). -/
structure SrvLeadUpdate where
  status : Option String := none
  notas : Option String := none
  deriving Repr, DecidableEq

/-- HTTP error raised by the endpoints. -/
inductive HttpError where
  | badRequest (detail : String)
  | notFound (detail : String)
  deriving Repr, DecidableEq

/-- Apply the $set update document built at server.py line 155 (None-valued
fields excluded) to one lead document. -/
def applySrvUpdate (upd : SrvLeadUpdate) (l : SrvLead) : SrvLead :=
  let l1 := match upd.status with
    | some s => { l with status := s }
    | none => l
  match upd.notas with
  | some n => { l1 with notas := some n }
  | none => l1

/-- update_one on the filter by id: the first matching document is updated. -/
def updateFirstById (lead_id : String) (f : SrvLead → SrvLead) :
    List SrvLead → List SrvLead
  | [] => []
  | l :: rest =>
      if l.id = lead_id then f l :: rest
      else l :: updateFirstById lead_id f rest

/-- update_lead of src/backend/server.py (lines 152-167): reject an empty
update document with 400; update_one by id (a no-op when no document matches);
when nothing matched raise 404.  Returns the endpoint outcome together with
the collection after the call (unchanged on every error path). -/
def backend_update_lead (store : List SrvLead) (lead_id : String)
    (upd : SrvLeadUpdate) : Except HttpError SrvLead × List SrvLead :=
  if upd.status = none ∧ upd.notas = none then
    (Except.error (.badRequest "Nenhum dado para atualizar"), store)
  else if store.any (fun l => l.id == lead_id) then
    let store1 := updateFirstById lead_id (applySrvUpdate upd) store
    match store1.find? (fun l => l.id == lead_id) with
    | some l => (Except.ok l, store1)
    | none => (Except.error (.notFound "Lead não encontrado"), store1)
  else
    (Except.error (.notFound "Lead não encontrado"), store)

/-- LeadUpdate request model of the gateway (fused_api_gateway.py). -/
structure GwLeadUpdate where
  status : Option String := none
  notas : Option String := none
  source : Option String := none
  deriving Repr, DecidableEq

/-- Observable effects of one gateway update_lead call. -/
structure GwUpdateEffects where
  store : List SrvLead
  statusChangeTriggers : List (String × String × String)
  syncScheduled : Bool
  deriving Repr, DecidableEq

/-- Apply the gateway $set document (lines 361-369; updated_at is outside the
modelled schema and omitted, a truthiness test keeps falsy fields out). -/
def applyGwUpdate (upd : GwLeadUpdate) (l : SrvLead) : SrvLead :=
  let l1 := match upd.status with
    | some s => if s ≠ "" then { l with status := s } else l
    | none => l
  let l2 := match upd.notas with
    | some n => if n ≠ "" then { l1 with notas := some n } else l1
    | none => l1
  match upd.source with
  | some f => if f ≠ "" then { l2 with fonte := f } else l2
  | none => l2

/-- update_lead of src/server/fused_api_gateway.py (lines 346-413): find the
lead by id (404 before any write when absent), apply the update, fire the
status-change automation only when the status actually changed, and schedule
the background sync.  The effects record collects the collection after the
call, the (lead_id, old, new) status-change triggers fired, and whether the
background sync task was scheduled. -/
def gateway_update_lead (store : List SrvLead) (lead_id : String)
    (upd : GwLeadUpdate) : Except HttpError Unit × GwUpdateEffects :=
  match store.find? (fun l => l.id == lead_id) with
  | none =>
      (Except.error (.notFound "Lead não encontrado"),
       { store := store, statusChangeTriggers := [], syncScheduled := false })
  | some lead =>
      let store1 := updateFirstById lead_id (applyGwUpdate upd) store
      let triggers :=
        match upd.status with
        | some s => if s ≠ "" ∧ s ≠ lead.status then [(lead_id, lead.status, s)] else []
        | none => []
      (Except.ok (),
       { store := store1, statusChangeTriggers := triggers, syncScheduled := true })

/-
  Fixtures: concrete inputs used by the counterexamples and witnesses below.
-/

/-- Total wall-clock seconds a full no-failure run of the given steps sleeps:
the in-handler sleep of each step plus the inter-step pause read from the
top-level delay_minutes key. -/
def stepsSleep (steps : List AutoStep) : Nat :=
  (steps.map (fun s => (execStep none s).2 + interStepSleep s)).sum

/-- A two-step sequence triggered by lead_capture. -/
def seqEx : AutomationSequence :=
  { sequence_id := "sq"
  , name := "n"
  , trigger_event := "lead_capture"
  , steps := [ { type := "send_email" }, { type := "send_whatsapp" } ] }

/-- A concrete lead-capture event. -/
def evEx : AutomationEvent :=
  mkLeadCaptureEvent { email := some "a@x.com", nome := some "Ana" } 7

/-- A handler oracle whose first invocation raises with message boom. -/
def effs0 (i : Nat) : Option String :=
  if i = 0 then some "boom" else none

/-- A document with no id field: the converter draws a fresh uuid4 for it on
every sync run. -/
def leadNoId : StoredLead :=
  { oid := 5
  , doc := { id := none
           , nome := some (.lit "Ana")
           , email := some (.lit "ana@x.com")
           , telefone := some (.lit "119")
           , status := some (.lit "novo")
           , fonte := none
           , notas := none
           , timestamp := some (.dt 10)
           , sync_source := none
           , original_id := none } }

/-- A resync-stable document: truthy id and a native datetime timestamp. -/
def leadStable : StoredLead :=
  { oid := 6
  , doc := { id := some (.lit "L1")
           , nome := some (.lit "Bia")
           , email := some (.lit "bia@x.com")
           , telefone := some (.lit "117")
           , status := some (.lit "contatado")
           , fonte := some (.lit "landing_page")
           , notas := some (.lit "ok")
           , timestamp := some (.dt 11)
           , sync_source := none
           , original_id := none } }

/-- A MiniMax file record keyed by an (email, telefone) pair. -/
def minimaxEx : MinimaxLead :=
  { lead_id := some (.lit "L2")
  , timestamp := some (.iso 12)
  , nome := some (.lit "Caio")
  , email := some (.lit "caio@x.com")
  , telefone := some (.lit "115")
  , status := some (.lit "novo")
  , source := some (.lit "minimax")
  , notes := some (.lit "")
  , created_at := none
  , updated_at := none
  , sync_source := none
  , original_id := none }

/-- A one-document primary store matching minimaxEx on (email, telefone). -/
def storeEx : List StoredLead :=
  [ { oid := 9
    , doc := { id := some (.lit "L2")
             , nome := some (.lit "Caio")
             , email := some (.lit "caio@x.com")
             , telefone := some (.lit "115")
             , status := some (.lit "contatado")
             , fonte := some (.lit "mongodb")
             , notas := some (.lit "x")
             , timestamp := some (.dt 3)
             , sync_source := some (.lit "minimax")
             , original_id := some (.lit "") } } ]

/-- A one-lead backend store whose only id is lead-1. -/
def srvStoreEx : List SrvLead :=
  [ { id := "lead-1"
    , nome := "Ana"
    , email := "ana@x.com"
    , telefone := "11900000000"
    , status := "novo"
    , fonte := "landing_page"
    , timestamp := 1 } ]

/-
  Helper lemmas shared by the claim theorems.
-/

/-- A handler invocation whose oracle reports no exception succeeds, whatever
the step type. -/
theorem execStep_none_ok (s : AutoStep) : (execStep none s).1 = Except.ok () := by
  unfold execStep
  split_ifs <;> rfl

/-- The persisted status trace of one _execute_sequence call is always
running then completed, or running then error. -/
theorem executeSequence_status_trace (effs : Nat → Option String)
    (seq : AutomationSequence) (ev : AutomationEvent) (t0 t1 : Nat) (m : InstMap) :
    ((executeSequence effs seq ev t0 t1 m).2).saves.map (fun s => s.status) =
        ["running", "completed"] ∨
    ((executeSequence effs seq ev t0 t1 m).2).saves.map (fun s => s.status) =
        ["running", "error"] := by
  unfold executeSequence
  cases h : (runStepsLoop effs seq.steps 0).2.2 <;> simp [h]

/-- Claim C6: after any logging operation the automation log holds
min(previous length + 1, 1000) entries, never more than 1000, and what is kept
is a suffix of the appended list: the oldest entries are evicted first and the
most recent ones are kept. -/
theorem c6_log_cap (logs : List LogEntry) (e : LogEntry) :
    (log_automation_action logs e).length = min (logs.length + 1) 1000 ∧
    (log_automation_action logs e).length ≤ 1000 ∧
    (log_automation_action logs e).IsSuffix (logs ++ [e]) := by
  unfold log_automation_action
  have hlen : (logs ++ [e]).length = logs.length + 1 := by simp
  by_cases h : (logs ++ [e]).length > 1000
  · simp only [h, if_true]
    refine ⟨?_, ?_, List.drop_suffix _ _⟩
    · rw [List.length_drop, hlen]
      rw [hlen] at h
      omega
    · rw [List.length_drop, hlen]
      rw [hlen] at h
      omega
  · simp only [h, if_false]
    refine ⟨?_, ?_, List.suffix_refl _⟩
    · rw [hlen]
      rw [hlen] at h
      omega
    · rw [hlen]
      rw [hlen] at h
      omega

/-- One _execute_sequence run per matched sequence, in registry order: the
trace of _process_event pairs each matched sequence id with its run. -/
theorem runMatching_fst_map (effs : Nat → Nat → Option String)
    (ev : AutomationEvent) (t0 t1 : Nat) :
    ∀ (seqs : List AutomationSequence) (i : Nat) (m : InstMap),
      ((runMatching effs ev t0 t1 seqs i m).2).map Prod.fst =
        seqs.map (fun s => s.sequence_id) := by
  intro seqs
  induction seqs with
  | nil => intro i m; rfl
  | cons seq rest ih =>
      intro i m
      simp [runMatching, ih]

/-- Every run recorded by the _process_event loop ends with a terminal
persisted status. -/
theorem runMatching_saves_terminal (effs : Nat → Nat → Option String)
    (ev : AutomationEvent) (t0 t1 : Nat) :
    ∀ (seqs : List AutomationSequence) (i : Nat) (m : InstMap),
      ((runMatching effs ev t0 t1 seqs i m).2).Forall
        (fun p => p.2.saves.map (fun s => s.status) = ["running", "completed"] ∨
                  p.2.saves.map (fun s => s.status) = ["running", "error"]) := by
  intro seqs
  induction seqs with
  | nil => intro i m; trivial
  | cons seq rest ih =>
      intro i m
      simp only [runMatching, List.forall_cons]
      exact ⟨executeSequence_status_trace _ _ _ _ _ _, ih _ _⟩

/-- With no handler failures the step loop invokes every step and sleeps the
full computed amount. -/
theorem runStepsLoop_noFail :
    ∀ (steps : List AutoStep) (k : Nat),
      runStepsLoop (fun _ => none) steps k =
        (steps.length, stepsSleep steps, none) := by
  intro steps
  induction steps with
  | nil => intro k; rfl
  | cons s rest ih =>
      intro k
      simp only [runStepsLoop, execStep_none_ok, ih (k + 1), stepsSleep,
        List.map_cons, List.sum_cons, List.length_cons, Prod.mk.injEq]

/-- With no handler failures _execute_sequence sleeps exactly the computed
total of its steps before returning. -/
theorem executeSequence_noFail_slept (seq : AutomationSequence)
    (ev : AutomationEvent) (t0 t1 : Nat) (m : InstMap) :
    ((executeSequence (fun _ => none) seq ev t0 t1 m).2).slept =
      stepsSleep seq.steps := by
  unfold executeSequence
  simp [runStepsLoop_noFail]

/-- With no handler failures the _process_event loop records, for each matched
sequence in order, a run sleeping the full computed amount of that sequence. -/
theorem runMatching_noFail_slept (ev : AutomationEvent) (t0 t1 : Nat) :
    ∀ (seqs : List AutomationSequence) (i : Nat) (m : InstMap),
      ((runMatching (fun _ _ => none) ev t0 t1 seqs i m).2).map
          (fun p => (p.1, p.2.slept)) =
        seqs.map (fun s => (s.sequence_id, stepsSleep s.steps)) := by
  intro seqs
  induction seqs with
  | nil => intro i m; rfl
  | cons seq rest ih =>
      intro i m
      simp [runMatching, ih, executeSequence_noFail_slept]

/-- If every step before index i succeeds and the handler of step i raises
msg, the step loop invokes exactly the first i + 1 steps and stops with msg:
the steps after the failing one are never invoked. -/
theorem runStepsLoop_firstError (effs : Nat → Option String) (msg : String) :
    ∀ (steps : List AutoStep) (k i : Nat) (hlt : i < steps.length),
      (∀ j (hj : j < i),
        (execStep (effs (k + j)) (steps.get ⟨j, Nat.lt_trans hj hlt⟩)).1 =
          Except.ok ()) →
      (execStep (effs (k + i)) (steps.get ⟨i, hlt⟩)).1 = Except.error msg →
      ∃ s, runStepsLoop effs steps k = (i + 1, s, some msg) := by
  intro steps
  induction steps with
  | nil =>
      intro k i hlt
      exact absurd hlt (by simp)
  | cons st rest ih =>
      intro k i hlt hok herr
      cases i with
      | zero =>
          have h0 : (execStep (effs k) st).1 = Except.error msg := by
            simpa using herr
          refine ⟨(execStep (effs k) st).2, ?_⟩
          simp only [runStepsLoop, h0]
      | succ i =>
          have h0 : (execStep (effs k) st).1 = Except.ok () := by
            simpa using hok 0 (Nat.succ_pos i)
          have hlt2 : i < rest.length := Nat.lt_of_succ_lt_succ hlt
          have hok2 : ∀ j (hj : j < i),
              (execStep (effs (k + 1 + j)) (rest.get ⟨j, Nat.lt_trans hj hlt2⟩)).1 =
                Except.ok () := by
            intro j hj
            have := hok (j + 1) (Nat.succ_lt_succ hj)
            have harith : k + (j + 1) = k + 1 + j := by omega
            simpa [harith] using this
          have herr2 :
              (execStep (effs (k + 1 + i)) (rest.get ⟨i, hlt2⟩)).1 =
                Except.error msg := by
            have harith : k + (i + 1) = k + 1 + i := by omega
            simpa [harith] using herr
          obtain ⟨s, hs⟩ := ih (k + 1) i hlt2 hok2 herr2
          refine ⟨(execStep (effs k) st).2 + interStepSleep st + s, ?_⟩
          simp only [runStepsLoop, h0, hs]

/-- Claim C1, counterexample.  The claim states that a step exception
propagates to the caller of the sequence execution.  Concretely: seqEx has two
steps and the handler of the first raises boom.  The instance is persisted
with status error carrying the message, the second step is never invoked
(invoked = 1), but the except block of _execute_sequence lines 298-305 ends
without re-raising, so nothing propagates to the caller: propagated = none,
refuting the propagation conjunct of the claim at this input. -/
theorem c1_step_error_counterexample :
    ((executeSequence effs0 seqEx evEx 0 1 []).2).saves.map (fun s => s.status) =
        ["running", "error"] ∧
    (((executeSequence effs0 seqEx evEx 0 1 []).2).saves.getLast?).map
        (fun s => s.error) = some (some "boom") ∧
    ((executeSequence effs0 seqEx evEx 0 1 []).2).invoked = 1 ∧
    ((executeSequence effs0 seqEx evEx 0 1 []).2).propagated = none := by
  decide

/-- Claim C1, amended: if the handler of step i raises msg after all earlier
steps succeeded, the SequenceInstance is persisted with status error carrying
the exception message, the steps after the failing one are never invoked, and
the exception is caught and logged inside _execute_sequence rather than
propagated to its caller. -/
theorem c1_step_error_amended (effs : Nat → Option String)
    (seq : AutomationSequence) (ev : AutomationEvent) (t0 t1 : Nat)
    (m : InstMap) (i : Nat) (msg : String) (hlt : i < seq.steps.length)
    (hok : ∀ j (hj : j < i),
      (execStep (effs j) (seq.steps.get ⟨j, Nat.lt_trans hj hlt⟩)).1 =
        Except.ok ())
    (herr : (execStep (effs i) (seq.steps.get ⟨i, hlt⟩)).1 = Except.error msg) :
    ((executeSequence effs seq ev t0 t1 m).2).invoked = i + 1 ∧
    ((executeSequence effs seq ev t0 t1 m).2).failure = some msg ∧
    ((executeSequence effs seq ev t0 t1 m).2).saves.map (fun s => s.status) =
        ["running", "error"] ∧
    (((executeSequence effs seq ev t0 t1 m).2).saves.getLast?).map
        (fun s => s.error) = some (some msg) ∧
    (((executeSequence effs seq ev t0 t1 m).2).saves.getLast?).map
        (fun s => s.steps_completed) = some i ∧
    ((executeSequence effs seq ev t0 t1 m).2).propagated = none := by
  obtain ⟨s, hs⟩ := runStepsLoop_firstError effs msg seq.steps 0 i hlt
    (fun j hj => by simpa using hok j hj) (by simpa using herr)
  simp only [executeSequence, hs]
  simp

/-- Claim C1, witness: the amended theorem applied at the concrete failing
run of the counterexample input. -/
theorem c1_step_error_witness :
    ((executeSequence effs0 seqEx evEx 0 1 []).2).invoked = 0 + 1 ∧
    ((executeSequence effs0 seqEx evEx 0 1 []).2).failure = some "boom" ∧
    ((executeSequence effs0 seqEx evEx 0 1 []).2).saves.map (fun s => s.status) =
        ["running", "error"] ∧
    (((executeSequence effs0 seqEx evEx 0 1 []).2).saves.getLast?).map
        (fun s => s.error) = some (some "boom") ∧
    (((executeSequence effs0 seqEx evEx 0 1 []).2).saves.getLast?).map
        (fun s => s.steps_completed) = some 0 ∧
    ((executeSequence effs0 seqEx evEx 0 1 []).2).propagated = none :=
  c1_step_error_amended effs0 seqEx evEx 0 1 [] 0 "boom" (by decide)
    (fun j hj => absurd hj (Nat.not_lt_zero j)) rfl

/-- Claim C2, counterexample.  The claim states every SequenceInstance starts
in status pending.  Concretely, on a failure-free run of seqEx the persisted
status trace is running then completed: the instance is created directly in
status running and pending never appears, refuting the pending-start conjunct
of the claim. -/
theorem c2_state_machine_counterexample :
    ((executeSequence (fun _ => none) seqEx evEx 0 1 []).2).saves.map
        (fun s => s.status) = ["running", "completed"] ∧
    ¬ ("pending" ∈ ((executeSequence (fun _ => none) seqEx evEx 0 1 []).2).saves.map
        (fun s => s.status)) := by
  decide

/-- Claim C2, amended: every SequenceInstance is created directly in status
running (pending is only the default status of an AutomationEvent, never of an
instance), its persisted status trace is running followed by exactly one of
the terminal states completed or error, and no transition out of a terminal
state ever occurs within the execution. -/
theorem c2_state_machine_amended (effs : Nat → Option String)
    (seq : AutomationSequence) (ev : AutomationEvent) (t0 t1 : Nat)
    (m : InstMap) :
    (((executeSequence effs seq ev t0 t1 m).2).saves.map (fun s => s.status) =
        ["running", "completed"] ∨
     ((executeSequence effs seq ev t0 t1 m).2).saves.map (fun s => s.status) =
        ["running", "error"]) ∧
    ¬ ("pending" ∈ ((executeSequence effs seq ev t0 t1 m).2).saves.map
        (fun s => s.status)) := by
  rcases executeSequence_status_trace effs seq ev t0 t1 m with h | h <;>
    simp [h]

/-- _execute_sequence reads only the event id, lead email and lead name of its
event: two events agreeing on those fields produce identical runs. -/
theorem executeSequence_ev_ext (effs : Nat → Option String)
    (seq : AutomationSequence) (ev1 ev2 : AutomationEvent) (t0 t1 : Nat)
    (m : InstMap) (h1 : ev1.event_id = ev2.event_id)
    (h2 : ev1.lead_email = ev2.lead_email)
    (h3 : ev1.lead_name = ev2.lead_name) :
    executeSequence effs seq ev1 t0 t1 m = executeSequence effs seq ev2 t0 t1 m := by
  simp only [executeSequence, h1, h2, h3]

/-- The _process_event loop passes its event to _execute_sequence unchanged:
two events agreeing on id, email and name produce identical loop results. -/
theorem runMatching_ev_ext (effs : Nat → Nat → Option String)
    (ev1 ev2 : AutomationEvent) (t0 t1 : Nat) (h1 : ev1.event_id = ev2.event_id)
    (h2 : ev1.lead_email = ev2.lead_email) (h3 : ev1.lead_name = ev2.lead_name) :
    ∀ (seqs : List AutomationSequence) (i : Nat) (m : InstMap),
      runMatching effs ev1 t0 t1 seqs i m = runMatching effs ev2 t0 t1 seqs i m := by
  intro seqs
  induction seqs with
  | nil => intro i m; rfl
  | cons seq rest ih =>
      intro i m
      simp only [runMatching]
      rw [executeSequence_ev_ext (effs i) seq ev1 ev2 t0 t1 m h1 h2 h3, ih]

/-- Claim C5: for every processed event the executed sequences are exactly the
active registered sequences whose trigger_event equals the event type (first
conjunct); the static status-to-trigger table only determines the
informational triggers_fired list returned by trigger_status_change (second
conjunct); and the runs executed by trigger_status_change are independent of
the new status, hence of the table (third conjunct). -/
theorem c5_selection_independent_of_table :
    (∀ (effs : Nat → Nat → Option String) (ev : AutomationEvent) (t0 t1 : Nat)
       (st : EngineState),
      ((processEvent effs ev t0 t1 st).2).map Prod.fst =
        (st.active_sequences.filter
          (fun s => s.trigger_event == ev.event_type && s.active)).map
            (fun s => s.sequence_id)) ∧
    (∀ (effs : Nat → Nat → Option String) (lid old_s new_s : String)
       (ld : LeadData) (t0 t1 : Nat) (st : EngineState),
      (trigger_status_change effs lid old_s new_s ld t0 t1 st).1.triggers_fired =
        getTriggersForStatus new_s) ∧
    (∀ (effs : Nat → Nat → Option String) (lid old_s new1 new2 : String)
       (ld : LeadData) (t0 t1 : Nat) (st : EngineState),
      (trigger_status_change effs lid old_s new1 ld t0 t1 st).2.2 =
        (trigger_status_change effs lid old_s new2 ld t0 t1 st).2.2) := by
  refine ⟨?_, ?_, ?_⟩
  · intro effs ev t0 t1 st
    simp only [processEvent]
    exact runMatching_fst_map effs ev t0 t1 _ 0 st.instances
  · intro effs lid old_s new_s ld t0 t1 st
    rfl
  · intro effs lid old_s new1 new2 ld t0 t1 st
    show (runMatching effs (mkStatusChangeEvent lid old_s new1 ld t0) t0 t1
        (st.active_sequences.filter
          (fun s => s.trigger_event == "status_change" && s.active)) 0
        st.instances).2 =
      (runMatching effs (mkStatusChangeEvent lid old_s new2 ld t0) t0 t1
        (st.active_sequences.filter
          (fun s => s.trigger_event == "status_change" && s.active)) 0
        st.instances).2
    exact congrArg Prod.snd
      (runMatching_ev_ext effs (mkStatusChangeEvent lid old_s new1 ld t0)
        (mkStatusChangeEvent lid old_s new2 ld t0) t0 t1 rfl rfl rfl
        (st.active_sequences.filter
          (fun s => s.trigger_event == "status_change" && s.active)) 0
        st.instances)

/-- Claim C8: trigger_lead_capture appends the constructed AutomationEvent to
the in-process queue and never consumes it (first conjunct); it processes the
event synchronously within the same call, running exactly the matching active
sequences (second conjunct), each of which has reached a terminal persisted
status by the time the call returns (third conjunct); the call slept through
the full computed delays of every executed sequence when no handler fails
(fourth conjunct); and the queue is only observed for metrics: the status
report exposes its length (fifth conjunct). -/
theorem c8_synchronous_trigger :
    (∀ (effs : Nat → Nat → Option String) (ld : LeadData) (now endNow : Nat)
       (st : EngineState),
      (trigger_lead_capture effs ld now endNow st).2.1.queue =
        st.queue ++ [mkLeadCaptureEvent ld now]) ∧
    (∀ (effs : Nat → Nat → Option String) (ld : LeadData) (now endNow : Nat)
       (st : EngineState),
      ((trigger_lead_capture effs ld now endNow st).2.2).map Prod.fst =
        (st.active_sequences.filter
          (fun s => s.trigger_event == "lead_capture" && s.active)).map
            (fun s => s.sequence_id)) ∧
    (∀ (effs : Nat → Nat → Option String) (ld : LeadData) (now endNow : Nat)
       (st : EngineState),
      ((trigger_lead_capture effs ld now endNow st).2.2).Forall
        (fun p => p.2.saves.map (fun s => s.status) = ["running", "completed"] ∨
                  p.2.saves.map (fun s => s.status) = ["running", "error"])) ∧
    (∀ (ld : LeadData) (now endNow : Nat) (st : EngineState),
      ((trigger_lead_capture (fun _ _ => none) ld now endNow st).2.2).map
          (fun p => (p.1, p.2.slept)) =
        (st.active_sequences.filter
          (fun s => s.trigger_event == "lead_capture" && s.active)).map
            (fun s => (s.sequence_id, stepsSleep s.steps))) ∧
    (∀ (effs : Nat → Nat → Option String) (ld : LeadData) (now endNow : Nat)
       (st : EngineState),
      (get_automation_status
          (trigger_lead_capture effs ld now endNow st).2.1).event_queue_size =
        ((trigger_lead_capture effs ld now endNow st).2.1).queue.length) := by
  refine ⟨?_, ?_, ?_, ?_, ?_⟩
  · intro effs ld now endNow st
    rfl
  · intro effs ld now endNow st
    show ((runMatching effs (mkLeadCaptureEvent ld now) now endNow
        (st.active_sequences.filter
          (fun s => s.trigger_event == "lead_capture" && s.active)) 0
        st.instances).2).map Prod.fst = _
    exact runMatching_fst_map effs (mkLeadCaptureEvent ld now) now endNow _ 0
      st.instances
  · intro effs ld now endNow st
    show ((runMatching effs (mkLeadCaptureEvent ld now) now endNow
        (st.active_sequences.filter
          (fun s => s.trigger_event == "lead_capture" && s.active)) 0
        st.instances).2).Forall _
    exact runMatching_saves_terminal effs (mkLeadCaptureEvent ld now) now endNow
      _ 0 st.instances
  · intro ld now endNow st
    show ((runMatching (fun _ _ => none) (mkLeadCaptureEvent ld now) now endNow
        (st.active_sequences.filter
          (fun s => s.trigger_event == "lead_capture" && s.active)) 0
        st.instances).2).map (fun p => (p.1, p.2.slept)) = _
    exact runMatching_noFail_slept (mkLeadCaptureEvent ld now) now endNow _ 0
      st.instances
  · intro effs ld now endNow st
    rfl

/-- Claim C10: for every lead_capture trigger call the returned triggers_fired
value is the fixed constant list of lines 121-125, independent of the engine
state (and the success flag is true, since nothing in the try body raises in
this model); on the default-seeded engine the sequences actually executed are
exactly welcome_7_day, whose identifier does not occur in the reported
constant list. -/
theorem c10_triggers_fired_constant :
    (∀ (effs : Nat → Nat → Option String) (ld : LeadData) (now endNow : Nat)
       (st : EngineState),
      (trigger_lead_capture effs ld now endNow st).1.triggers_fired =
        ["welcome_sequence", "7_day_nurture", "whatsapp_welcome"] ∧
      (trigger_lead_capture effs ld now endNow st).1.success = true) ∧
    (∀ (effs : Nat → Nat → Option String) (ld : LeadData) (now endNow t : Nat),
      ((trigger_lead_capture effs ld now endNow (freshEngine t)).2.2).map
          Prod.fst = ["welcome_7_day"]) ∧
    ¬ ("welcome_7_day" ∈ ["welcome_sequence", "7_day_nurture", "whatsapp_welcome"]) := by
  refine ⟨?_, ?_, by decide⟩
  · intro effs ld now endNow st
    exact ⟨rfl, rfl⟩
  · intro effs ld now endNow t
    show ((runMatching effs (mkLeadCaptureEvent ld now) now endNow
        ((freshEngine t).active_sequences.filter
          (fun s => s.trigger_event == "lead_capture" && s.active)) 0
        (freshEngine t).instances).2).map Prod.fst = _
    rw [runMatching_fst_map]
    rfl

/-- A resync-stable document converts, up to updated_at, to the same MiniMax
record on every run, whatever the clock and the uuid draw. -/
theorem convert_stable_strip (l : StoredLead) (now1 now2 : Nat) (u1 u2 : Sv)
    (h : stableForResync l.doc = true) :
    stripUpdatedAt (convert_mongo_lead_to_minimax l now1 u1) =
      stripUpdatedAt (convert_mongo_lead_to_minimax l now2 u2) := by
  rw [stableForResync, Bool.and_eq_true] at h
  obtain ⟨hid, hts⟩ := h
  cases hI : l.doc.id with
  | none => rw [hI] at hid; exact absurd hid (by simp)
  | some v =>
      rw [hI] at hid
      simp only [] at hid
      cases hT : l.doc.timestamp with
      | none => rw [hT] at hts; exact absurd hts (by simp)
      | some tv =>
          rw [hT] at hts
          cases tv with
          | dt t =>
              simp [convert_mongo_lead_to_minimax, stripUpdatedAt, timestampStr,
                pyOrSv, hI, hT, hid]
          | str s =>
              simp only [] at hts
              simp [convert_mongo_lead_to_minimax, stripUpdatedAt, timestampStr,
                pyOrSv, hI, hT, hid, hts]

/-- The sync conversion loop on a resync-stable store is, up to updated_at,
independent of the clock and the uuid draws. -/
theorem syncMongoLoop_stable_strip (now1 now2 : Nat) (u1 u2 : Nat → Sv) :
    ∀ (store : List StoredLead) (i1 i2 : Nat),
      (∀ l ∈ store, stableForResync l.doc = true) →
      (syncMongoLoop now1 u1 store i1).map stripUpdatedAt =
        (syncMongoLoop now2 u2 store i2).map stripUpdatedAt := by
  intro store
  induction store with
  | nil => intro i1 i2 h; rfl
  | cons l rest ih =>
      intro i1 i2 h
      simp only [syncMongoLoop, List.map_cons]
      rw [convert_stable_strip l now1 now2 (u1 i1) (u2 i2)
          (h l (List.mem_cons_self l rest)),
        ih (i1 + 1) (i2 + 1) (fun x hx => h x (List.mem_cons_of_mem l hx))]

/-- Claim C3, counterexample.  The claim asserts that for every primary store
state, two sync runs with no primary-side changes produce files identical
except for updated_at.  Concretely, leadNoId has no id field, so each run
draws a fresh uuid4 for lead_id (line 310); with the distinct draws uuid-a and
uuid-b the two outputs differ in lead_id, not only in updated_at. -/
theorem c3_idempotence_counterexample :
    ¬ ((sync_mongodb_to_minimax [leadNoId] 100 (fun _ => .lit "uuid-a")).map
          stripUpdatedAt =
       (sync_mongodb_to_minimax [leadNoId] 200 (fun _ => .lit "uuid-b")).map
          stripUpdatedAt) := by
  decide

/-- Claim C3, amended: for every primary store whose records all carry a
truthy id and a present, truthy timestamp, running sync(primary to secondary)
twice with no primary-side changes produces a secondary file identical except
for the updated_at field of each record, whatever the clocks and uuid draws of
the two runs. -/
theorem c3_idempotence_amended (store : List StoredLead) (now1 now2 : Nat)
    (u1 u2 : Nat → Sv) (h : ∀ l ∈ store, stableForResync l.doc = true) :
    (sync_mongodb_to_minimax store now1 u1).map stripUpdatedAt =
      (sync_mongodb_to_minimax store now2 u2).map stripUpdatedAt :=
  syncMongoLoop_stable_strip now1 now2 u1 u2 store 0 0 h

/-- Claim C3, witness: the amended theorem applied to the one-document stable
store, with distinct clocks and uuid draws. -/
theorem c3_idempotence_witness :
    (sync_mongodb_to_minimax [leadStable] 100 (fun _ => .lit "uuid-a")).map
        stripUpdatedAt =
      (sync_mongodb_to_minimax [leadStable] 200 (fun _ => .lit "uuid-b")).map
        stripUpdatedAt :=
  c3_idempotence_amended [leadStable] 100 200 (fun _ => .lit "uuid-a")
    (fun _ => .lit "uuid-b") (by decide)

/-- Claim C4: converting a Lead Store record that carries email, telefone,
status, notas and a native datetime timestamp to the File Store schema and
back preserves email, phone, status and notes exactly (and the back-conversion
succeeds: the timestamp string written by the first conversion parses). -/
theorem c4_roundtrip (l : StoredLead) (now : Nat) (u1 u2 : Sv)
    (e p st no : Sv) (t : Nat)
    (he : l.doc.email = some e) (hp : l.doc.telefone = some p)
    (hs : l.doc.status = some st) (hn : l.doc.notas = some no)
    (ht : l.doc.timestamp = some (.dt t)) :
    ∃ d, convert_minimax_lead_to_mongo (convert_mongo_lead_to_minimax l now u1)
        u2 = Except.ok d ∧
      d.email = some e ∧ d.telefone = some p ∧ d.status = some st ∧
      d.notas = some no := by
  simp [convert_mongo_lead_to_minimax, convert_minimax_lead_to_mongo,
    timestampStr, pyFromIso, he, hp, hs, hn, ht]

/-- Claim C4, witness: the round trip applied to the concrete stable lead. -/
theorem c4_roundtrip_witness :
    ∃ d, convert_minimax_lead_to_mongo
        (convert_mongo_lead_to_minimax leadStable 100 (Sv.lit "u1"))
        (Sv.lit "u2") = Except.ok d ∧
      d.email = some (Sv.lit "bia@x.com") ∧
      d.telefone = some (Sv.lit "117") ∧
      d.status = some (Sv.lit "contatado") ∧
      d.notas = some (Sv.lit "ok") :=
  c4_roundtrip leadStable 100 (Sv.lit "u1") (Sv.lit "u2") (Sv.lit "bia@x.com")
    (Sv.lit "117") (Sv.lit "contatado") (Sv.lit "ok") 11 rfl rfl rfl rfl rfl

/-- update_one by ObjectId replaces the matched document in place: the stored
ObjectIds, their order and the collection length are unchanged. -/
theorem updateFirstByOid_oids (oid : Nat) (d : LeadDoc) :
    ∀ store : List StoredLead,
      (updateFirstByOid store oid d).map (fun r => r.oid) =
        store.map (fun r => r.oid) := by
  intro store
  induction store with
  | nil => rfl
  | cons r rest ih =>
      by_cases h : r.oid = oid
      · simp [updateFirstByOid, h]
      · simp [updateFirstByOid, h, ih]


/-- Claim C7: for every record of the secondary file, the bridge looks an
existing primary document up by the (email, telefone) tuple; when one is found
that document is updated in place (same ObjectIds in the same order), and
otherwise a new document is inserted; a document matching one tuple never
matches a tuple with the same email but a different phone, so such records are
treated as distinct. -/
theorem c7_tuple_lookup (store : List StoredLead) (m : MinimaxLead) (u : Sv)
    (oidNew : Nat) (d : LeadDoc)
    (hconv : convert_minimax_lead_to_mongo m u = Except.ok d) :
    (∀ r, store.find? (fun r => queryMatches m.email m.telefone r.doc) = some r →
      sync_one_minimax_lead store m u oidNew =
        (updateFirstByOid store r.oid d, SyncOutcome.updated) ∧
      (updateFirstByOid store r.oid d).map (fun x => x.oid) =
        store.map (fun x => x.oid)) ∧
    (store.find? (fun r => queryMatches m.email m.telefone r.doc) = none →
      sync_one_minimax_lead store m u oidNew =
        (store ++ [⟨oidNew, d⟩], SyncOutcome.inserted)) ∧
    (∀ (m2 : MinimaxLead) (d0 : LeadDoc), m2.email = m.email →
      m2.telefone ≠ m.telefone →
      queryMatches m.email m.telefone d0 = true →
      queryMatches m2.email m2.telefone d0 = false) := by
  refine ⟨?_, ?_, ?_⟩
  · intro r hfind
    constructor
    · simp only [sync_one_minimax_lead, hconv, hfind]
    · exact updateFirstByOid_oids r.oid d store
  · intro hfind
    simp only [sync_one_minimax_lead, hconv, hfind]
  · intro m2 d0 he hp hq
    rw [queryMatches, Bool.and_eq_true] at hq
    obtain ⟨hqe, hqt⟩ := hq
    rw [beq_iff_eq] at hqt
    rw [queryMatches, he]
    have hfalse : (d0.telefone == m2.telefone) = false := by
      rw [hqt]
      exact beq_eq_false_iff_ne.mpr (fun hx => hp hx.symm)
    simp [hfalse]


/-- Claim C7, witness: processing minimaxEx against storeEx, whose only
document matches the (email, telefone) tuple of minimaxEx, updates that
document in place. -/
theorem c7_tuple_lookup_witness :
    sync_one_minimax_lead storeEx minimaxEx (Sv.lit "u") 10 =
      (updateFirstByOid storeEx 9
        { id := some (Sv.lit "L2")
        , nome := some (Sv.lit "Caio")
        , email := some (Sv.lit "caio@x.com")
        , telefone := some (Sv.lit "115")
        , status := some (Sv.lit "novo")
        , fonte := some (Sv.lit "minimax")
        , notas := some (Sv.lit "")
        , timestamp := some (TsVal.dt 12)
        , sync_source := some (Sv.lit "minimax")
        , original_id := some (Sv.lit "") }, SyncOutcome.updated) ∧
    (updateFirstByOid storeEx 9
        { id := some (Sv.lit "L2")
        , nome := some (Sv.lit "Caio")
        , email := some (Sv.lit "caio@x.com")
        , telefone := some (Sv.lit "115")
        , status := some (Sv.lit "novo")
        , fonte := some (Sv.lit "minimax")
        , notas := some (Sv.lit "")
        , timestamp := some (TsVal.dt 12)
        , sync_source := some (Sv.lit "minimax")
        , original_id := some (Sv.lit "") }).map (fun x => x.oid) =
      storeEx.map (fun x => x.oid) :=
  (c7_tuple_lookup storeEx minimaxEx (Sv.lit "u") 10 _ rfl).1 _ rfl

/-- Claim C9: updating a lead id absent from the store (with a non-empty
update document, as in the spec scenario of setting status) returns the
not-found error and performs no side effects, on both endpoints: the backend
endpoint leaves the collection unchanged, and the gateway endpoint leaves the
collection unchanged, fires no status-change automation and schedules no
background sync. -/
theorem c9_update_notfound (store : List SrvLead) (lead_id : String)
    (upd : SrvLeadUpdate) (gupd : GwLeadUpdate)
    (habs : ∀ l ∈ store, l.id ≠ lead_id)
    (hne : ¬ (upd.status = none ∧ upd.notas = none)) :
    backend_update_lead store lead_id upd =
      (Except.error (.notFound "Lead não encontrado"), store) ∧
    gateway_update_lead store lead_id gupd =
      (Except.error (.notFound "Lead não encontrado"),
       { store := store, statusChangeTriggers := [], syncScheduled := false }) := by
  have hany : store.any (fun l => l.id == lead_id) = false := by
    rw [Bool.eq_false_iff]
    intro hcontra
    rw [List.any_eq_true] at hcontra
    obtain ⟨l, hl, hbeq⟩ := hcontra
    exact habs l hl (by simpa using hbeq)
  have hfind : store.find? (fun l => l.id == lead_id) = none := by
    rw [List.find?_eq_none]
    intro l hl hx
    exact habs l hl (by simpa using hx)
  constructor
  · simp only [backend_update_lead, hany, if_neg hne, Bool.false_eq_true,
      if_false]
  · rw [gateway_update_lead, hfind]

/-- Claim C9, witness: setting status qualificado on the id missing-id, absent
from srvStoreEx, on both endpoints. -/
theorem c9_update_notfound_witness :
    backend_update_lead srvStoreEx "missing-id"
        { status := some "qualificado" } =
      (Except.error (.notFound "Lead não encontrado"), srvStoreEx) ∧
    gateway_update_lead srvStoreEx "missing-id"
        { status := some "qualificado" } =
      (Except.error (.notFound "Lead não encontrado"),
       { store := srvStoreEx, statusChangeTriggers := [], syncScheduled := false }) :=
  c9_update_notfound srvStoreEx "missing-id" { status := some "qualificado" }
    { status := some "qualificado" } (by decide) (by decide)
